import Mathlib

/-!
Shallow embedding of the session-lifecycle subsystem of the MIM3 dashboard
(`src/database/commands/session_commands.py`, `src/services/session_service.py`,
`src/services/session_restore_manager.py`, `src/models/session/session_db.py`,
`src/models/session/session_context.py`, `src/models/session/session_st.py`).

Timestamps are modelled as natural numbers (`datetime.now()` becomes an explicit
`now : Nat` parameter; `timedelta(hours=h)` becomes `h * 3600`).  The relational
store is modelled as association lists for the `user_session`, `user_account`
and `role` tables; `session_token` carries the schema's UNIQUE constraint
(`database/core/database_initialize.py`), so an insert that duplicates an
existing token fails and leaves the store unchanged, exactly as the caught
`IntegrityError` does in `create_session`.
-/

set_option maxRecDepth 4000

/-- Row of the `user_session` table (columns from `database_initialize.py`). -/
structure SessionRow where
  user_id : Nat
  ip_address : Option String
  user_agent : Option String
  created_at : Nat
  expires_at : Nat
  last_activity : Nat
  is_active : Bool
deriving Repr, DecidableEq

/-- The columns of `user_account` that the session join reads. -/
structure UserRow where
  username : String
  role_id : Nat
deriving Repr, DecidableEq

/-- Database state: the three tables touched by the session subsystem.
Sessions are keyed by `session_token`, users and roles by their integer id. -/
structure DBState where
  sessions : List (String × SessionRow)
  users : List (Nat × UserRow)
  roles : List (Nat × String)
deriving Repr, DecidableEq

/-- `SELECT ... WHERE session_token = tok` (first matching row). -/
def lookupSession : List (String × SessionRow) → String → Option SessionRow
  | [], _ => none
  | e :: rest, tok => if e.1 = tok then some e.2 else lookupSession rest tok

/-- `SELECT ... WHERE id = uid` on `user_account`. -/
def lookupUser : List (Nat × UserRow) → Nat → Option UserRow
  | [], _ => none
  | e :: rest, uid => if e.1 = uid then some e.2 else lookupUser rest uid

/-- `SELECT name ... WHERE id = rid` on `role`. -/
def lookupRole : List (Nat × String) → Nat → Option String
  | [], _ => none
  | e :: rest, rid => if e.1 = rid then some e.2 else lookupRole rest rid

/-- Whether some row carries the given token (`rowcount > 0` for a
token-keyed UPDATE, and the UNIQUE-constraint test on insert). -/
def hasToken : List (String × SessionRow) → String → Bool
  | [], _ => false
  | e :: rest, tok => if e.1 = tok then true else hasToken rest tok

/-- Drop leading whitespace characters. -/
def dropLeadingWs : List Char → List Char
  | [] => []
  | c :: rest => if c.isWhitespace then dropLeadingWs rest else c :: rest

/-- pydantic `str_strip_whitespace=True`: strip whitespace from both ends. -/
def stripStr (s : String) : String :=
  String.mk (dropLeadingWs (dropLeadingWs s.data.reverse).reverse)

/-- Length bound check on an optional string (pydantic `max_length`). -/
def optLenLe (n : Nat) : Option String → Bool
  | none => true
  | some s => decide (s.data.length ≤ n)

/-- `SessionValidation` pydantic model (`models/session/session_db.py`). -/
structure SessionValidation where
  is_valid : Bool
  is_expired : Bool
  user_id : Option Nat
  username : Option String
  role_name : Option String
  message : String
deriving Repr, DecidableEq

/-- `SessionValidation.invalid_session` helper. -/
def SessionValidation.invalid_session (reason : String := "Session tidak valid") :
    SessionValidation :=
  { is_valid := false, is_expired := false, user_id := none, username := none,
    role_name := none, message := reason }

/-- `SessionValidation.expired_session` helper. -/
def SessionValidation.expired_session : SessionValidation :=
  { is_valid := false, is_expired := true, user_id := none, username := none,
    role_name := none, message := "Session expired" }

/-- `SessionValidation.valid_session` helper. -/
def SessionValidation.valid_session (user_id : Nat) (username role_name : String) :
    SessionValidation :=
  { is_valid := true, is_expired := false, user_id := some user_id,
    username := some username, role_name := some role_name,
    message := "Session valid" }

/-- `SessionResult` pydantic model (`models/session/session_db.py`). -/
structure SessionResult where
  success : Bool
  session_id : Option Nat
  token : Option String
  message : String
deriving Repr, DecidableEq

/-- `SessionResult.success_result` helper. -/
def SessionResult.success_result (session_id : Nat) (token : String)
    (message : String := "Session berhasil dibuat") : SessionResult :=
  { success := true, session_id := some session_id, token := some token,
    message := message }

/-- `SessionResult.error_result` helper. -/
def SessionResult.error_result (message : String) : SessionResult :=
  { success := false, session_id := none, token := none, message := message }

/-- `SessionCreate` pydantic model: the store-insert request. -/
structure SessionCreate where
  user_id : Nat
  session_token : String
  ip_address : Option String
  user_agent : Option String
  expires_at : Nat
deriving Repr, DecidableEq

/-- pydantic construction of `SessionCreate`: strings are stripped
(`str_strip_whitespace=True`), then `user_id` must satisfy `gt=0`,
`ip_address` its `max_length=45` and `user_agent` its `max_length=500`;
a violated constraint raises `ValidationError` (modelled as `none`). -/
def SessionCreate.mk? (user_id : Nat) (session_token : String)
    (ip_address user_agent : Option String) (expires_at : Nat) :
    Option SessionCreate :=
  let ip := ip_address.map stripStr
  let ua := user_agent.map stripStr
  if 0 < user_id ∧ optLenLe 45 ip = true ∧ optLenLe 500 ua = true then
    some { user_id := user_id, session_token := stripStr session_token,
           ip_address := ip, user_agent := ua, expires_at := expires_at }
  else none

/-- The `request_info` dict passed to `SessionCreate.create_new`
(optional `ip_address` / `user_agent` keys). -/
structure RequestInfo where
  ip_address : Option String
  user_agent : Option String
deriving Repr, DecidableEq

/-- `SessionCreate.create_new`: factory generating the insert request with
expiry `now + hours`; the freshly generated `secrets.token_urlsafe(32)` value
is passed in as `tok`. -/
def SessionCreate.create_new (user_id : Nat) (hours : Nat)
    (request_info : Option RequestInfo) (now : Nat) (tok : String) :
    Option SessionCreate :=
  SessionCreate.mk? user_id tok
    (request_info.bind (fun r => r.ip_address))
    (request_info.bind (fun r => r.user_agent))
    (now + hours * 3600)

/-- The row inserted by `create_session`: `is_active=True`,
`created_at = last_activity = now`. -/
def insertedRow (now : Nat) (data : SessionCreate) : SessionRow :=
  { user_id := data.user_id, ip_address := data.ip_address,
    user_agent := data.user_agent, created_at := now,
    expires_at := data.expires_at, last_activity := now, is_active := true }

/-- `create_session` (`database/commands/session_commands.py`): inserts one row
with `is_active=True` and `created_at = last_activity = now`.  The
`session_token` column is UNIQUE, so a duplicate token makes the insert raise;
the `except` clause turns that into an `error_result` and the transaction is
never committed, leaving the store unchanged.  `lastrowid` is modelled as the
next surrogate id. -/
def create_session (now : Nat) (data : SessionCreate) (st : DBState) :
    SessionResult × DBState :=
  if hasToken st.sessions data.session_token then
    (SessionResult.error_result
      "Gagal membuat database session: UNIQUE constraint failed", st)
  else
    (SessionResult.success_result (st.sessions.length + 1) data.session_token
      "Database session berhasil dibuat",
     { st with sessions := st.sessions ++ [(data.session_token,
         insertedRow now data)] })

/-- The row updates of `deactivate_session`: every row whose token matches gets
`is_active=False, last_activity=now`. -/
def deactivateRows (now : Nat) (tok : String) :
    List (String × SessionRow) → List (String × SessionRow)
  | [] => []
  | e :: rest =>
    (if e.1 = tok then (e.1, { e.2 with is_active := false, last_activity := now })
     else e) :: deactivateRows now tok rest

/-- `deactivate_session`: token-keyed UPDATE setting `is_active=False`;
returns `rowcount > 0`. -/
def deactivate_session (now : Nat) (session_token : String) (st : DBState) :
    Bool × DBState :=
  (hasToken st.sessions session_token,
   { st with sessions := deactivateRows now session_token st.sessions })

/-- The row updates of `update_session_activity`: rows whose token matches AND
which are active get `last_activity = now`. -/
def touchRows (now : Nat) (tok : String) :
    List (String × SessionRow) → List (String × SessionRow)
  | [] => []
  | e :: rest =>
    (if e.1 = tok ∧ e.2.is_active = true then (e.1, { e.2 with last_activity := now })
     else e) :: touchRows now tok rest

/-- Whether some active row carries the token (`rowcount > 0` for
`update_session_activity`'s WHERE clause). -/
def hasActiveToken : List (String × SessionRow) → String → Bool
  | [], _ => false
  | e :: rest, tok =>
    if e.1 = tok ∧ e.2.is_active = true then true else hasActiveToken rest tok

/-- `update_session_activity`: touches `last_activity` only where
`session_token` matches and `is_active`; returns `rowcount > 0`. -/
def update_session_activity (now : Nat) (session_token : String) (st : DBState) :
    Bool × DBState :=
  (hasActiveToken st.sessions session_token,
   { st with sessions := touchRows now session_token st.sessions })

/-- The join of `get_session_by_token`: session ⋈ user ⋈ role (inner join, so
a dangling `user_id` or `role_id` gives no row). -/
def joinLookup (st : DBState) (tok : String) :
    Option (SessionRow × String × String) :=
  match lookupSession st.sessions tok with
  | none => none
  | some row =>
    match lookupUser st.users row.user_id with
    | none => none
    | some u =>
      match lookupRole st.roles u.role_id with
      | none => none
      | some rname => some (row, u.username, rname)

/-- The body of `get_session_by_token`: early-returns `invalid` for tokens
shorter than 10 characters, then joins session+user+role and classifies the
row.  The source function is additionally decorated with
`@st.cache_data(ttl=DBConstants.CACHE_TTL_FAST)`; that layer is modelled by
`get_session_by_token_cached` below. -/
def get_session_by_token (now : Nat) (session_token : String) (st : DBState) :
    SessionValidation :=
  if session_token.data.length < 10 then
    SessionValidation.invalid_session "Token tidak valid"
  else
    match joinLookup st session_token with
    | none => SessionValidation.invalid_session "Session tidak ditemukan"
    | some (row, username, role_name) =>
      if row.is_active = false then
        SessionValidation.invalid_session "Session tidak aktif"
      else if row.expires_at < now then
        SessionValidation.expired_session
      else
        SessionValidation.valid_session row.user_id username role_name

/-- The body of `is_session_expired`: bare projection of `expires_at`; a
missing row and (in the source) any store error count as expired.  The source
function is additionally decorated with
`@st.cache_data(ttl=DBConstants.CACHE_TTL_SHORT)`; that layer is modelled by
`is_session_expired_cached` below. -/
def is_session_expired (now : Nat) (session_token : String) (st : DBState) :
    Bool :=
  match lookupSession st.sessions session_token with
  | none => true
  | some row => decide (row.expires_at < now)

/-- `SessionService.validate_session` over the undecorated store read:
`None`/empty token short-circuits to invalid, otherwise delegates to the
`get_session_by_token` body (`validate_session_cached` below adds the
delegate's cache layer). -/
def validate_session (now : Nat) (session_token : Option String) (st : DBState) :
    SessionValidation :=
  match session_token with
  | none => SessionValidation.invalid_session "Token tidak ada"
  | some tok =>
    if tok = "" then SessionValidation.invalid_session "Token tidak ada"
    else get_session_by_token now tok st

/-- `SessionService.refresh_session` over the undecorated expiry probe:
expiry check first, then activity touch (`refresh_session_cached` below adds
the probe's cache layer). -/
def refresh_session (now : Nat) (session_token : Option String) (st : DBState) :
    Bool × DBState :=
  match session_token with
  | none => (false, st)
  | some tok =>
    if tok = "" then (false, st)
    else if is_session_expired now tok st then (false, st)
    else update_session_activity now tok st

/-- The Streamlit session-state keys managed by `StreamlitSessionManager`
(`models/session/session_st.py`); an absent key is `none`.  This is the
"UI mirror" of the spec. -/
structure UIMirror where
  authenticated : Option Bool
  user_id : Option Nat
  username : Option String
  display_name : Option String
  user_role : Option String
  session_token : Option String
deriving Repr, DecidableEq

/-- The mirror with every session-state key absent. -/
def UIMirror.empty : UIMirror :=
  { authenticated := none, user_id := none, username := none,
    display_name := none, user_role := none, session_token := none }

/-- `clear_user_session` / `StreamlitSessionManager.clear_session`: pops every
session key; always returns `True` in the source. -/
def clear_user_session (_m : UIMirror) : UIMirror := UIMirror.empty

/-- `UserActiveSession` pydantic model (`models/user/user_auth.py`). -/
structure UserActiveSession where
  user_id : Nat
  username : String
  name : String
  role_id : Nat
  role_name : String
  session_token : Option String
deriving Repr, DecidableEq

/-- Whether a string is one of the `UserRole` literals
(`models/user/user_role.py`: `Literal["admin", "staff", "support"]`). -/
def isUserRole (s : String) : Bool :=
  s = "admin" ∨ s = "staff" ∨ s = "support"

/-- pydantic construction of `UserActiveSession`: `user_id` and `role_id`
carry `gt=0`, `role_name` must be a `UserRole` literal, and `user_id` /
`username` may arrive as `None` from a `SessionValidation` (also rejected);
a violated constraint raises `ValidationError` (modelled as `none`). -/
def UserActiveSession.mk? (user_id : Option Nat) (username name : Option String)
    (role_id : Nat) (role_name : String) (session_token : Option String) :
    Option UserActiveSession :=
  match user_id, username, name with
  | some uid, some un, some nm =>
    if 0 < uid ∧ 0 < role_id ∧ isUserRole role_name = true then
      some { user_id := uid, username := un, name := nm, role_id := role_id,
             role_name := role_name, session_token := session_token }
    else none
  | _, _, _ => none

/-- `set_user_session` / `StreamlitSessionManager.set_session` applied to a
`UserActiveSession` (the type both callers pass): the method reads
`data.display_name` and `data.role`, attributes `UserActiveSession` does not
define (it has `name` and `role_name`), so after assigning `authenticated`,
`user_id` and `username` an `AttributeError` is raised, the `except` clause
calls `clear_session` (wiping every key) and the method returns `False`. -/
def set_user_session (data : UserActiveSession) (m : UIMirror) : Bool × UIMirror :=
  let m1 := { m with authenticated := some true, user_id := some data.user_id,
                     username := some data.username }
  (false, clear_user_session m1)

/-- `SessionService.create_user_session`: prepares a `SessionCreate` via
`_prepare_session_data` (8-hour expiry), inserts it with `create_session`,
then stores the token and mirrors the session into Streamlit state.  Any
exception inside the `try` (including the pydantic `ValidationError` from
`_prepare_session_data`) becomes a generic `error_result`.  The freshly
generated token is the parameter `tok`. -/
def create_user_session (now : Nat) (tok : String) (user_session : UserActiveSession)
    (request_info : Option RequestInfo) (st : DBState) (m : UIMirror) :
    SessionResult × DBState × UIMirror :=
  match SessionCreate.create_new user_session.user_id 8 request_info now tok with
  | none => (SessionResult.error_result "Error sistem saat membuat session", st, m)
  | some data =>
    let db := create_session now data st
    if db.1.success = false then (db.1, db.2, m)
    else
      match db.1.session_id, db.1.token with
      | some sid, some t =>
        let us := { user_session with session_token := some t }
        let st1 := set_user_session us m
        (SessionResult.success_result sid t "Hybrid session berhasil dibuat",
         db.2, st1.2)
      | some _, none =>
        (SessionResult.error_result "Error sistem: token tidak valid", db.2, m)
      | none, _ =>
        (SessionResult.error_result "Error sistem: session_id tidak valid", db.2, m)

/-- `SessionService.clear_session`: clears the mirror, then (given a token)
deactivates the store-side session; always returns `True`. -/
def clear_session (now : Nat) (session_token : Option String) (st : DBState)
    (m : UIMirror) : Bool × DBState × UIMirror :=
  let m1 := clear_user_session m
  match session_token with
  | none => (true, st, m1)
  | some tok => (true, (deactivate_session now tok st).2, m1)

/-- Modelled from the spec: `SessionService.get_session_restoration_data` is
called by `SessionRestorationManager.restore_session_from_token` but is not
defined anywhere under the sources; the spec says restoration "validates via
SessionService", so it is modelled as session validation against the store. -/
def get_session_restoration_data (now : Nat) (session_token : String)
    (st : DBState) : SessionValidation :=
  validate_session now (some session_token) st

/-- Python `x or y` on an optional string: `None` and `""` fall to `y`. -/
def pyOrStr (a : Option String) (b : String) : String :=
  match a with
  | none => b
  | some s => if s = "" then b else s

/-- `SessionRestorationManager.restore_session_from_token`: validates the
token, then builds a `UserActiveSession` for the mirror with
`role_id = getattr(validation, "role_id", 0)`; `SessionValidation` has no
`role_id` attribute, so `0` is passed, the `gt=0` constraint raises
`ValidationError`, the `except` clause returns `False` and the mirror is never
touched.  (Context capture never fails and does not affect the result.) -/
def restore_session_from_token (now : Nat) (session_token : String)
    (st : DBState) (m : UIMirror) : Bool × UIMirror :=
  let validation := get_session_restoration_data now session_token st
  if validation.is_valid = false then (false, m)
  else
    match UserActiveSession.mk? validation.user_id validation.username
        validation.username 0 (pyOrStr validation.role_name "unknown")
        (some session_token) with
    | none => (false, m)
    | some us => (true, (set_user_session us m).2)

/-- `SessionRestorationManager.clear_session_state`: clears the mirror, then
calls `self.session_service.deactivate_session(session_token)` — a method
`SessionService` does not define — so the `AttributeError` is swallowed by the
`except` clause, the store row stays untouched, and `True` is returned. -/
def clear_session_state (_now : Nat) (_session_token : Option String)
    (st : DBState) (m : UIMirror) : Bool × DBState × UIMirror :=
  (true, st, clear_user_session m)

/-- `SessionRestorationManager.ensure_session_active`: reads the mirror's
token; invalid sessions clear the UI state via `clear_session_state`;
otherwise the session activity is refreshed. -/
def ensure_session_active (now : Nat) (st : DBState) (m : UIMirror) :
    Bool × DBState × UIMirror :=
  match m.session_token with
  | none => (false, st, m)
  | some tok =>
    if tok = "" then (false, st, m)
    else if (validate_session now (some tok) st).is_valid = false then
      let cleared := clear_session_state now (some tok) st m
      (false, cleared.2.1, cleared.2.2)
    else
      let r := refresh_session now (some tok) st
      (r.1, r.2, m)

/-- Outcome of reading one `st.context` attribute: a value, `None`, or an
`AttributeError`/`RuntimeError` (the exceptions the extractor catches). -/
inductive CtxOutcome (α : Type) where
  | avail (v : α)
  | isNone
  | raises
deriving Repr, DecidableEq

/-- The host environment seen by `SessionContext.from_streamlit_context`:
each `st.context` attribute individually available, `None`, or raising. -/
structure StContext where
  ip_address : CtxOutcome String
  url : CtxOutcome String
  timezone : CtxOutcome String
  timezone_offset : CtxOutcome Int
  locale : CtxOutcome String
  is_embedded : CtxOutcome Bool
  headers : CtxOutcome (List (String × String))
  cookies : CtxOutcome (List (String × String))

/-- A value of the `FALLBACK_VALUES` dict (Python values are untyped). -/
inductive FBVal where
  | str (s : String)
  | int (i : Int)
  | bool (b : Bool)
deriving Repr, DecidableEq

/-- `dict.get` on a string-keyed dict (returns `None` for a missing key). -/
def dictGet {α : Type} : List (String × α) → String → Option α
  | [], _ => none
  | e :: rest, k => if e.1 = k then some e.2 else dictGet rest k

/-- The generic user-agent fallback string of `FALLBACK_VALUES`. -/
def fallbackUserAgent : String := "MIM3Dashboard/1.0 (Windows NT 10.0; Win64; x64)"

/-- The hard-coded `FALLBACK_VALUES` dict of `from_streamlit_context`. -/
def FALLBACK_VALUES : List (String × FBVal) :=
  [("client_ip", .str "192.168.1.100"),
   ("user_agent", .str fallbackUserAgent),
   ("access_url", .str "http://192.168.1.100:8501"),
   ("timezone", .str "Asia/Jakarta"),
   ("timezone_offset", .int (-420)),
   ("locale", .str "id-ID"),
   ("is_embedded", .bool false)]

/-- `safe_get_context_attr` for a string-valued attribute: the attribute's
value when present, else `FALLBACK_VALUES.get(fallback_key)`. -/
def safe_get_str_attr (o : CtxOutcome String) (fallback_key : String) :
    Option String :=
  match o with
  | .avail v => some v
  | _ =>
    match dictGet FALLBACK_VALUES fallback_key with
    | some (.str s) => some s
    | _ => none

/-- `safe_get_context_attr` for the integer-valued `timezone_offset`. -/
def safe_get_int_attr (o : CtxOutcome Int) (fallback_key : String) : Option Int :=
  match o with
  | .avail v => some v
  | _ =>
    match dictGet FALLBACK_VALUES fallback_key with
    | some (.int i) => some i
    | _ => none

/-- `safe_get_context_attr` for `is_embedded` (`FALLBACK_VALUES` holds
`False` for it). -/
def safe_get_bool_attr (o : CtxOutcome Bool) (fallback_key : String) : Bool :=
  match o with
  | .avail v => v
  | _ =>
    match dictGet FALLBACK_VALUES fallback_key with
    | some (.bool b) => b
    | _ => false

/-- `safe_get_headers`: the headers dict plus the extracted user-agent; an
absent, empty or raising `headers` falls back to a singleton user-agent dict. -/
def safe_get_headers (o : CtxOutcome (List (String × String))) :
    List (String × String) × String :=
  match o with
  | .avail hs =>
    if hs = [] then ([("user-agent", fallbackUserAgent)], fallbackUserAgent)
    else (hs, (dictGet hs "user-agent").getD fallbackUserAgent)
  | _ => ([("user-agent", fallbackUserAgent)], fallbackUserAgent)

/-- `safe_get_cookies`: the cookies dict or `{}`. -/
def safe_get_cookies (o : CtxOutcome (List (String × String))) :
    List (String × String) :=
  match o with
  | .avail c => c
  | _ => []

/-- `SessionContext` pydantic model (`models/session/session_context.py`). -/
structure SessionContext where
  client_ip : Option String
  access_url : Option String
  timezone : Option String
  timezone_offset : Option Int
  locale : Option String
  is_embedded : Bool
  user_agent : Option String
  headers : List (String × String)
  cookies : List (String × String)
deriving Repr, DecidableEq

/-- `SessionContext.from_streamlit_context`: best-effort capture where every
field individually falls back to its `FALLBACK_VALUES` entry. -/
def SessionContext.from_streamlit_context (ctx : StContext) : SessionContext :=
  let hs := safe_get_headers ctx.headers
  { client_ip := safe_get_str_attr ctx.ip_address "client_ip",
    access_url := safe_get_str_attr ctx.url "access_url",
    timezone := safe_get_str_attr ctx.timezone "timezone",
    timezone_offset := safe_get_int_attr ctx.timezone_offset "timezone_offset",
    locale := safe_get_str_attr ctx.locale "locale",
    is_embedded := safe_get_bool_attr ctx.is_embedded "is_embedded",
    user_agent := some hs.2,
    headers := hs.1,
    cookies := safe_get_cookies ctx.cookies }

/-- One `@st.cache_data` entry: the memoised return value and when it was
stored. -/
structure CachedVal (α : Type) where
  value : α
  stored_at : Nat
deriving Repr, DecidableEq

/-- The process-wide `@st.cache_data` state of the two decorated session
commands, keyed by their only argument, the session token.  Nothing in the
repository ever clears either cache. -/
structure SessionCache where
  validation : List (String × CachedVal SessionValidation)
  expiry : List (String × CachedVal Bool)
deriving Repr, DecidableEq

/-- The cache of a freshly started process: no entries. -/
def cacheEmpty : SessionCache := { validation := [], expiry := [] }

/-- `DBConstants.CACHE_TTL_FAST` (`config/constants.py`): 60 seconds. -/
def CACHE_TTL_FAST : Nat := 60

/-- `DBConstants.CACHE_TTL_SHORT` (`config/constants.py`): 300 seconds. -/
def CACHE_TTL_SHORT : Nat := 300

/-- Cache read: serve the stored value while it is younger than the ttl. -/
def cacheServe {α : Type} : List (String × CachedVal α) → String → Nat → Nat →
    Option α
  | [], _, _, _ => none
  | e :: rest, key, now, ttl =>
    if e.1 = key then (if now < e.2.stored_at + ttl then some e.2.value else none)
    else cacheServe rest key now ttl

/-- Cache write: replace (or append) the entry for the key. -/
def cacheStore {α : Type} : List (String × CachedVal α) → String → α → Nat →
    List (String × CachedVal α)
  | [], key, v, now => [(key, { value := v, stored_at := now })]
  | e :: rest, key, v, now =>
    if e.1 = key then (key, { value := v, stored_at := now }) :: rest
    else e :: cacheStore rest key v now

/-- `get_session_by_token` as the service actually calls it: the function is
decorated `@st.cache_data(ttl=DBConstants.CACHE_TTL_FAST)`
(`session_commands.py`), so a call within 60 seconds of a cached call with
the same token serves the memoised `SessionValidation`; otherwise the body
(`get_session_by_token` above) runs and its result is memoised. -/
def get_session_by_token_cached (now : Nat) (session_token : String)
    (st : DBState) (c : SessionCache) : SessionValidation × SessionCache :=
  match cacheServe c.validation session_token now CACHE_TTL_FAST with
  | some v => (v, c)
  | none =>
    let v := get_session_by_token now session_token st
    (v, { c with validation := cacheStore c.validation session_token v now })

/-- `is_session_expired` as the service actually calls it: decorated
`@st.cache_data(ttl=DBConstants.CACHE_TTL_SHORT)`, so an answer for a token
can be served stale for up to 300 seconds. -/
def is_session_expired_cached (now : Nat) (session_token : String)
    (st : DBState) (c : SessionCache) : Bool × SessionCache :=
  match cacheServe c.expiry session_token now CACHE_TTL_SHORT with
  | some b => (b, c)
  | none =>
    let b := is_session_expired now session_token st
    (b, { c with expiry := cacheStore c.expiry session_token b now })

/-- `SessionService.validate_session` with the cache layer its delegate
`get_session_by_token` really carries. -/
def validate_session_cached (now : Nat) (session_token : Option String)
    (st : DBState) (c : SessionCache) : SessionValidation × SessionCache :=
  match session_token with
  | none => (SessionValidation.invalid_session "Token tidak ada", c)
  | some tok =>
    if tok = "" then (SessionValidation.invalid_session "Token tidak ada", c)
    else get_session_by_token_cached now tok st c

/-- `SessionService.refresh_session` with the cache layer its expiry probe
`is_session_expired` really carries: the probe's (possibly 300-second-stale)
answer is consulted first, then the activity touch runs. -/
def refresh_session_cached (now : Nat) (session_token : Option String)
    (st : DBState) (c : SessionCache) : Bool × DBState × SessionCache :=
  match session_token with
  | none => (false, st, c)
  | some tok =>
    if tok = "" then (false, st, c)
    else
      let e := is_session_expired_cached now tok st c
      if e.1 then (false, st, e.2)
      else
        let u := update_session_activity now tok st
        (u.1, u.2, e.2)

/-- One operation of the session subsystem as the process runs it, used to
state the temporal claim about revocation: reads and refreshes go through the
`@st.cache_data` layer, which they may also populate. -/
inductive CachedOp where
  | validate (tok : Option String)
  | refresh (tok : Option String)
  | updActivity (tok : String)
  | deactivate (tok : String)
  | create (data : SessionCreate)
  | checkExpired (tok : String)
deriving Repr, DecidableEq

/-- The store-and-cache state after one operation. -/
def applyCachedOp (now : Nat) (op : CachedOp) (s : DBState × SessionCache) :
    DBState × SessionCache :=
  match op with
  | .validate tok => (s.1, (validate_session_cached now tok s.1 s.2).2)
  | .refresh tok =>
    let r := refresh_session_cached now tok s.1 s.2
    (r.2.1, r.2.2)
  | .updActivity tok => ((update_session_activity now tok s.1).2, s.2)
  | .deactivate tok => ((deactivate_session now tok s.1).2, s.2)
  | .create data => ((create_session now data s.1).2, s.2)
  | .checkExpired tok => (s.1, (is_session_expired_cached now tok s.1 s.2).2)

/-- The store-and-cache state after a timed trace of operations. -/
def runCachedOps : List (Nat × CachedOp) → DBState × SessionCache →
    DBState × SessionCache
  | [], s => s
  | e :: rest, s => runCachedOps rest (applyCachedOp e.1 e.2 s)

/-- A sample active session row used by concrete witnesses. -/
def rowEx : SessionRow :=
  { user_id := 1, ip_address := none, user_agent := none, created_at := 0,
    expires_at := 9, last_activity := 0, is_active := true }

/-- A sample database state with one active, unexpired session. -/
def dbEx : DBState :=
  { sessions := [("abcdefghij", rowEx)],
    users := [(1, { username := "alice", role_id := 2 })],
    roles := [(2, "admin")] }

example : lookupSession dbEx.sessions "abcdefghij" ≠ none := by decide

example : (get_session_by_token 5 "abcdefghij" dbEx).is_valid = true := by decide

/-- The empty database state. -/
def emptyDB : DBState := { sessions := [], users := [], roles := [] }

theorem hasToken_eq_isSome (rows : List (String × SessionRow)) (tok : String) :
    hasToken rows tok = (lookupSession rows tok).isSome := by
  induction rows with
  | nil => simp [hasToken, lookupSession]
  | cons e rest ih =>
    simp only [hasToken, lookupSession]
    split <;> simp [ih]

theorem lookupSession_append_of_some (rows rows' : List (String × SessionRow))
    (tok : String) (r : SessionRow) (h : lookupSession rows tok = some r) :
    lookupSession (rows ++ rows') tok = some r := by
  induction rows with
  | nil => simp [lookupSession] at h
  | cons e rest ih =>
    simp only [lookupSession, List.cons_append] at h ⊢
    split at h
    · simp_all [lookupSession]
    · simp_all [lookupSession]

theorem lookupSession_append_of_fresh (rows rows' : List (String × SessionRow))
    (tok : String) (h : hasToken rows tok = false) :
    lookupSession (rows ++ rows') tok = lookupSession rows' tok := by
  induction rows with
  | nil => simp [lookupSession]
  | cons e rest ih =>
    simp only [hasToken] at h
    simp only [List.cons_append, lookupSession]
    split at h
    · exact absurd h (by simp)
    · next hne =>
      rw [if_neg hne]
      exact ih h

theorem lookup_deactivateRows (now : Nat) (t tok : String)
    (rows : List (String × SessionRow)) :
    lookupSession (deactivateRows now t rows) tok =
      (lookupSession rows tok).map
        (fun r => if tok = t then { r with is_active := false, last_activity := now }
                  else r) := by
  induction rows with
  | nil => simp [deactivateRows, lookupSession]
  | cons e rest ih =>
    simp only [deactivateRows, lookupSession]
    by_cases h1 : e.1 = t
    · by_cases h2 : e.1 = tok
      · simp [lookupSession, h1, h2, h2 ▸ h1]
      · have hnt : ¬ t = tok := fun hc => h2 (h1.trans hc)
        simp [lookupSession, h1, h2, hnt, ih]
    · by_cases h2 : e.1 = tok
      · have : ¬ tok = t := fun hc => h1 (h2.trans hc)
        simp [lookupSession, h1, h2, this]
      · simp [lookupSession, h1, h2, ih]

theorem lookup_touchRows (now : Nat) (t tok : String)
    (rows : List (String × SessionRow)) :
    lookupSession (touchRows now t rows) tok =
      (lookupSession rows tok).map
        (fun r => if tok = t ∧ r.is_active = true then { r with last_activity := now }
                  else r) := by
  induction rows with
  | nil => simp [touchRows, lookupSession]
  | cons e rest ih =>
    simp only [touchRows, lookupSession]
    by_cases h2 : e.1 = tok
    · by_cases h1 : e.1 = t ∧ e.2.is_active = true
      · simp [lookupSession, h1, h2, h2 ▸ h1]
      · have : ¬ (tok = t ∧ e.2.is_active = true) := by
          rw [← h2]; exact h1
        simp [lookupSession, h1, h2, this]
    · by_cases h1 : e.1 = t ∧ e.2.is_active = true
      · have hnt : ¬ t = tok := fun hc => h2 (h1.1.trans hc)
        simp [lookupSession, h1, h2, hnt, ih]
      · simp [lookupSession, h1, h2, ih]

theorem deactivateRows_of_fresh (now : Nat) (tok : String)
    (rows : List (String × SessionRow)) (h : hasToken rows tok = false) :
    deactivateRows now tok rows = rows := by
  induction rows with
  | nil => simp [deactivateRows]
  | cons e rest ih =>
    simp only [hasToken] at h
    split at h
    · exact absurd h (by simp)
    · next hne => simp [deactivateRows, hne, ih h]

theorem hasToken_deactivateRows (now : Nat) (t tok : String)
    (rows : List (String × SessionRow)) :
    hasToken (deactivateRows now t rows) tok = hasToken rows tok := by
  induction rows with
  | nil => simp [deactivateRows]
  | cons e rest ih =>
    simp only [deactivateRows, hasToken]
    by_cases h1 : e.1 = t <;> simp [hasToken, h1, ih]

/-- Claim C4 as stated is false: `deactivate_session` on a token with no
matching session row returns `false`, not `true`. -/
theorem deactivate_missing_token_not_true :
    (deactivate_session 0 "missing_token_12345" emptyDB).1 = false := by decide

/-- C4 (amended): `deactivate_session` returns exactly whether a row matched
the token (so it is `false` for a missing session, and repeating it on an
existing — by then inactive — session still returns `true`); a missing token
also leaves the store unchanged. -/
theorem deactivate_session_reports_row_match (now now2 : Nat) (tok : String)
    (st : DBState) :
    (deactivate_session now tok st).1 = hasToken st.sessions tok ∧
    (hasToken st.sessions tok = false → (deactivate_session now tok st).2 = st) ∧
    (deactivate_session now2 tok (deactivate_session now tok st).2).1 =
      hasToken st.sessions tok := by
  refine ⟨rfl, fun h => ?_, ?_⟩
  · simp [deactivate_session, deactivateRows_of_fresh now tok st.sessions h]
  · simp [deactivate_session, hasToken_deactivateRows]

/-- Witness for C4's amended theorem at a concrete store. -/
theorem deactivate_session_reports_row_match_witness :
    (deactivate_session 3 "abcdefghij" dbEx).1 = true ∧
    (deactivate_session 9 "nosuchtoken" dbEx).2 = dbEx ∧
    (deactivate_session 7 "abcdefghij" (deactivate_session 3 "abcdefghij" dbEx).2).1 =
      true := by
  have h1 := deactivate_session_reports_row_match 3 7 "abcdefghij" dbEx
  have h2 := deactivate_session_reports_row_match 9 0 "nosuchtoken" dbEx
  refine ⟨?_, h2.2.1 (by decide), ?_⟩
  · rw [h1.1]; decide
  · rw [h1.2.2]; decide

/-- C7: for a token with no matching session row, validation returns the
invalid outcome (not valid, not marked expired, message "Session tidak
ditemukan" whenever the token is long enough to reach the store) and the
expiry probe fails closed to `true`. -/
theorem absent_token_fails_closed (now : Nat) (tok : String) (st : DBState)
    (h : lookupSession st.sessions tok = none) :
    (get_session_by_token now tok st).is_valid = false ∧
    (get_session_by_token now tok st).is_expired = false ∧
    is_session_expired now tok st = true ∧
    (10 ≤ tok.data.length →
      (get_session_by_token now tok st).message = "Session tidak ditemukan") := by
  refine ⟨?_, ?_, ?_, ?_⟩ <;>
    simp only [get_session_by_token, is_session_expired, joinLookup, h]
  · split <;> simp [SessionValidation.invalid_session]
  · split <;> simp [SessionValidation.invalid_session]
  · intro hlen
    rw [if_neg (by omega)]
    simp [SessionValidation.invalid_session]

/-- Witness for C7 at a concrete absent token. -/
theorem absent_token_fails_closed_witness :
    (get_session_by_token 4 "nosuchtoken" emptyDB).is_valid = false ∧
    (get_session_by_token 4 "nosuchtoken" emptyDB).is_expired = false ∧
    is_session_expired 4 "nosuchtoken" emptyDB = true ∧
    (get_session_by_token 4 "nosuchtoken" emptyDB).message =
      "Session tidak ditemukan" := by
  have h := absent_token_fails_closed 4 "nosuchtoken" emptyDB (by decide)
  exact ⟨h.1, h.2.1, h.2.2.1, h.2.2.2 (by decide)⟩

/-- The invariant claim C10 states for every produced `SessionValidation`. -/
def ValidationInvariant (v : SessionValidation) : Prop :=
  (v.is_valid = true → v.is_expired = false) ∧
  (v.is_valid = true →
    v.user_id.isSome = true ∧ v.username.isSome = true ∧ v.role_name.isSome = true) ∧
  (v.is_valid = false →
    v.user_id = none ∧ v.username = none ∧ v.role_name = none)

theorem validationInvariant_invalid (reason : String) :
    ValidationInvariant (SessionValidation.invalid_session reason) := by
  simp [ValidationInvariant, SessionValidation.invalid_session]

theorem validationInvariant_expired :
    ValidationInvariant SessionValidation.expired_session := by
  simp [ValidationInvariant, SessionValidation.expired_session]

theorem validationInvariant_valid (uid : Nat) (un rn : String) :
    ValidationInvariant (SessionValidation.valid_session uid un rn) := by
  simp [ValidationInvariant, SessionValidation.valid_session]

/-- C10: every `SessionValidation` produced by `get_session_by_token` or
`validate_session` satisfies the invariant: a valid result is never marked
expired and carries user id, username and role name, while any non-valid
result carries none of them. -/
theorem session_validation_invariant (now : Nat) (tok : String)
    (topt : Option String) (st : DBState) :
    ValidationInvariant (get_session_by_token now tok st) ∧
    ValidationInvariant (validate_session now topt st) := by
  have hg : ∀ t, ValidationInvariant (get_session_by_token now t st) := by
    intro t
    unfold get_session_by_token
    split
    · exact validationInvariant_invalid _
    · split
      · exact validationInvariant_invalid _
      · split
        · exact validationInvariant_invalid _
        · split
          · exact validationInvariant_expired
          · exact validationInvariant_valid _ _ _
  refine ⟨hg tok, ?_⟩
  unfold validate_session
  match topt with
  | none => exact validationInvariant_invalid _
  | some t =>
    by_cases h : t = ""
    · simp only [h, if_pos rfl]
      exact validationInvariant_invalid _
    · simp only [if_neg h]
      exact hg t

/-- Witness for C10 at a concrete store and token. -/
theorem session_validation_invariant_witness :
    ValidationInvariant (get_session_by_token 5 "abcdefghij" dbEx) ∧
    ValidationInvariant (validate_session 5 (some "abcdefghij") dbEx) :=
  session_validation_invariant 5 "abcdefghij" (some "abcdefghij") dbEx

/-- The store holds a row for the token, and that row is deactivated. -/
def inactiveAt (st : DBState) (tok : String) : Prop :=
  ∃ r, lookupSession st.sessions tok = some r ∧ r.is_active = false

theorem inactiveAt_update_session_activity (now : Nat) (t tok : String)
    (st : DBState) (h : inactiveAt st tok) :
    inactiveAt (update_session_activity now t st).2 tok := by
  obtain ⟨r, hr, hra⟩ := h
  refine ⟨r, ?_, hra⟩
  simp only [update_session_activity, lookup_touchRows, hr, Option.map_some]
  simp [hra]

theorem inactiveAt_deactivate (now : Nat) (t tok : String) (st : DBState)
    (h : inactiveAt st tok) : inactiveAt (deactivate_session now t st).2 tok := by
  obtain ⟨r, hr, hra⟩ := h
  simp only [deactivate_session, inactiveAt, lookup_deactivateRows, hr,
    Option.map_some]
  by_cases hc : tok = t
  · exact ⟨_, rfl, by simp [hc]⟩
  · exact ⟨r, by simp [hc], hra⟩

theorem inactiveAt_refresh_cached (now : Nat) (t : Option String) (tok : String)
    (st : DBState) (c : SessionCache) (h : inactiveAt st tok) :
    inactiveAt (refresh_session_cached now t st c).2.1 tok := by
  match t with
  | none => exact h
  | some t' =>
    simp only [refresh_session_cached]
    by_cases h1 : t' = ""
    · simp [h1, h]
    · rw [if_neg h1]
      by_cases h2 : (is_session_expired_cached now t' st c).1 = true
      · simp [h2, h]
      · simp only [Bool.not_eq_true] at h2
        simp [h2]
        exact inactiveAt_update_session_activity now t' tok st h

theorem inactiveAt_create (now : Nat) (data : SessionCreate) (tok : String)
    (st : DBState) (h : inactiveAt st tok) :
    inactiveAt (create_session now data st).2 tok := by
  obtain ⟨r, hr, hra⟩ := h
  simp only [create_session]
  by_cases hc : hasToken st.sessions data.session_token = true
  · simp [hc]; exact ⟨r, hr, hra⟩
  · simp only [Bool.not_eq_true] at hc
    simp only [hc, Bool.false_eq_true, if_false]
    exact ⟨r, lookupSession_append_of_some _ _ _ _ hr, hra⟩

theorem get_session_by_token_of_inactive (now : Nat) (tok : String)
    (st : DBState) (r : SessionRow) (hr : lookupSession st.sessions tok = some r)
    (hra : r.is_active = false) :
    (get_session_by_token now tok st).is_valid = false := by
  simp only [get_session_by_token, joinLookup, hr]
  split
  · simp [SessionValidation.invalid_session]
  · match hu : lookupUser st.users r.user_id with
    | none => simp [SessionValidation.invalid_session]
    | some u =>
      match hro : lookupRole st.roles u.role_id with
      | none => simp [hro, SessionValidation.invalid_session]
      | some rn => simp [hro, hra, SessionValidation.invalid_session]

theorem cacheServe_eq_some {α : Type} (l : List (String × CachedVal α))
    (key : String) (now ttl : Nat) (v : α)
    (h : cacheServe l key now ttl = some v) :
    ∃ e, dictGet l key = some e ∧ e.value = v ∧ now < e.stored_at + ttl := by
  induction l with
  | nil => simp [cacheServe] at h
  | cons e rest ih =>
    simp only [cacheServe] at h
    simp only [dictGet]
    by_cases h1 : e.1 = key
    · rw [if_pos h1] at h
      rw [if_pos h1]
      split at h
      · next ht => exact ⟨e.2, rfl, (Option.some.injEq _ _).mp h, ht⟩
      · simp at h
    · rw [if_neg h1] at h
      rw [if_neg h1]
      exact ih h

theorem dictGet_cacheStore_self {α : Type} (l : List (String × CachedVal α))
    (key : String) (v : α) (now : Nat) :
    dictGet (cacheStore l key v now) key =
      some { value := v, stored_at := now } := by
  induction l with
  | nil => simp [cacheStore, dictGet]
  | cons e rest ih =>
    simp only [cacheStore]
    by_cases h1 : e.1 = key
    · simp [h1, dictGet]
    · simp [dictGet, h1, ih]

theorem dictGet_cacheStore_ne {α : Type} (l : List (String × CachedVal α))
    (key k2 : String) (v : α) (now : Nat) (h : ¬ k2 = key) :
    dictGet (cacheStore l key v now) k2 = dictGet l k2 := by
  have hk : ¬ key = k2 := fun hc => h hc.symm
  induction l with
  | nil => simp [cacheStore, dictGet, hk]
  | cons e rest ih =>
    simp only [cacheStore]
    by_cases h1 : e.1 = key
    · simp [dictGet, h1, hk]
    · simp [dictGet, h1, ih]

theorem is_session_expired_cached_validation (now : Nat) (t : String)
    (st : DBState) (c : SessionCache) :
    (is_session_expired_cached now t st c).2.validation = c.validation := by
  simp only [is_session_expired_cached]
  cases hs : cacheServe c.expiry t now CACHE_TTL_SHORT <;> simp [hs]

theorem refresh_session_cached_validation (now : Nat) (t : Option String)
    (st : DBState) (c : SessionCache) :
    (refresh_session_cached now t st c).2.2.validation = c.validation := by
  match t with
  | none => rfl
  | some t' =>
    simp only [refresh_session_cached]
    by_cases h1 : t' = ""
    · simp [h1]
    · rw [if_neg h1]
      by_cases h2 : (is_session_expired_cached now t' st c).1 = true
      · simp [h2, is_session_expired_cached_validation]
      · simp [h2, is_session_expired_cached_validation]

/-- The invariant that holds from revocation onward: the token's row is
inactive in the store, and the token's validation-cache entry is either still
exactly the one from revocation time or holds a non-valid result (nothing
ever clears the cache, and every post-revocation store read is invalid). -/
def revokedInv (tok : String) (c0 : SessionCache)
    (s : DBState × SessionCache) : Prop :=
  inactiveAt s.1 tok ∧
  (dictGet s.2.validation tok = dictGet c0.validation tok ∨
   (∀ e, dictGet s.2.validation tok = some e → e.value.is_valid = false))

theorem revokedInv_validate (now : Nat) (t : Option String) (tok : String)
    (c0 : SessionCache) (s : DBState × SessionCache)
    (h : revokedInv tok c0 s) :
    revokedInv tok c0 (s.1, (validate_session_cached now t s.1 s.2).2) := by
  unfold revokedInv at h ⊢
  obtain ⟨hin, hc⟩ := h
  refine ⟨hin, ?_⟩
  match t with
  | none => exact hc
  | some t' =>
    simp only [validate_session_cached]
    by_cases h1 : t' = ""
    · rw [if_pos h1]
      exact hc
    · rw [if_neg h1]
      simp only [get_session_by_token_cached]
      cases hs : cacheServe s.2.validation t' now CACHE_TTL_FAST with
      | some v => exact hc
      | none =>
        by_cases h2 : t' = tok
        · subst h2
          right
          intro e he
          rw [dictGet_cacheStore_self] at he
          rw [← (Option.some.injEq _ _).mp he]
          obtain ⟨r, hr, hra⟩ := hin
          exact get_session_by_token_of_inactive now t' s.1 r hr hra
        · have hne : ¬ tok = t' := fun hcc => h2 hcc.symm
          cases hc with
          | inl h3 =>
            left
            rw [dictGet_cacheStore_ne _ _ _ _ _ hne]
            exact h3
          | inr h3 =>
            right
            intro e he
            rw [dictGet_cacheStore_ne _ _ _ _ _ hne] at he
            exact h3 e he

theorem applyCachedOp_preserves (now : Nat) (op : CachedOp) (tok : String)
    (c0 : SessionCache) (s : DBState × SessionCache)
    (h : revokedInv tok c0 s) : revokedInv tok c0 (applyCachedOp now op s) := by
  match op with
  | .validate t => exact revokedInv_validate now t tok c0 s h
  | .refresh t =>
    unfold revokedInv at h ⊢
    obtain ⟨hin, hc⟩ := h
    have hval : (applyCachedOp now (CachedOp.refresh t) s).2.validation =
        s.2.validation := by
      show (refresh_session_cached now t s.1 s.2).2.2.validation = _
      exact refresh_session_cached_validation now t s.1 s.2
    refine ⟨inactiveAt_refresh_cached now t tok s.1 s.2 hin, ?_⟩
    rw [hval]
    exact hc
  | .updActivity t =>
    unfold revokedInv at h ⊢
    exact ⟨inactiveAt_update_session_activity now t tok s.1 h.1, h.2⟩
  | .deactivate t =>
    unfold revokedInv at h ⊢
    exact ⟨inactiveAt_deactivate now t tok s.1 h.1, h.2⟩
  | .create data =>
    unfold revokedInv at h ⊢
    exact ⟨inactiveAt_create now data tok s.1 h.1, h.2⟩
  | .checkExpired t =>
    unfold revokedInv at h ⊢
    obtain ⟨hin, hc⟩ := h
    have hval : (applyCachedOp now (CachedOp.checkExpired t) s).2.validation =
        s.2.validation := by
      show (is_session_expired_cached now t s.1 s.2).2.validation = _
      exact is_session_expired_cached_validation now t s.1 s.2
    refine ⟨hin, ?_⟩
    rw [hval]
    exact hc

theorem runCachedOps_preserves (trace : List (Nat × CachedOp)) (tok : String)
    (c0 : SessionCache) (s : DBState × SessionCache)
    (h : revokedInv tok c0 s) : revokedInv tok c0 (runCachedOps trace s) := by
  induction trace generalizing s with
  | nil => exact h
  | cons e rest ih =>
    exact ih _ (applyCachedOp_preserves e.1 e.2 tok c0 s h)

theorem deactivate_true_gives_inactive (now : Nat) (tok : String) (st : DBState)
    (h : (deactivate_session now tok st).1 = true) :
    inactiveAt (deactivate_session now tok st).2 tok := by
  have h1 : (lookupSession st.sessions tok).isSome = true := by
    rw [← hasToken_eq_isSome]; exact h
  obtain ⟨r, hr⟩ := Option.isSome_iff_exists.mp h1
  simp only [deactivate_session, inactiveAt, lookup_deactivateRows, hr,
    Option.map_some]
  exact ⟨_, rfl, by simp⟩

/-- Claim C6 as stated is false in the program: `get_session_by_token` is
decorated `@st.cache_data(ttl=CACHE_TTL_FAST=60s)` and nothing ever clears
that cache, so after `deactivate_session` has returned `true` a validation
within 60 seconds of a pre-revocation validation serves the memoised `Valid`
result — the revoked token keeps validating. -/
theorem revoked_token_still_validates_from_cache :
    (deactivate_session 3 "abcdefghij" dbEx).1 = true ∧
    (validate_session_cached 4 (some "abcdefghij")
      (deactivate_session 3 "abcdefghij" dbEx).2
      (validate_session_cached 2 (some "abcdefghij") dbEx
        cacheEmpty).2).1.is_valid = true := by decide

/-- C6 (amended): once `deactivate_session` has returned `true` for a token,
the token's row stays `is_active = false` through every timed trace of the
subsystem's operations (cached validation, cached refresh, activity update,
deactivation, creation, cached expiry checks), and every later
`validate_session` whose answer is not served by a pre-revocation cache entry
that is still inside its 60-second ttl — in particular any validation once
every such entry has aged out — returns a non-valid result, permanently; no
operation ever re-activates the row. -/
theorem revoked_session_stays_invalid_cached (now0 : Nat) (tok : String)
    (st : DBState) (c0 : SessionCache)
    (hrev : (deactivate_session now0 tok st).1 = true)
    (trace : List (Nat × CachedOp)) (now : Nat)
    (hstale : ∀ e, dictGet c0.validation tok = some e →
      e.value.is_valid = false ∨ e.stored_at + CACHE_TTL_FAST ≤ now) :
    inactiveAt (runCachedOps trace ((deactivate_session now0 tok st).2, c0)).1
      tok ∧
    (validate_session_cached now (some tok)
      (runCachedOps trace ((deactivate_session now0 tok st).2, c0)).1
      (runCachedOps trace
        ((deactivate_session now0 tok st).2, c0)).2).1.is_valid = false := by
  have h0 : revokedInv tok c0 ((deactivate_session now0 tok st).2, c0) := by
    unfold revokedInv
    exact ⟨deactivate_true_gives_inactive now0 tok st hrev, Or.inl rfl⟩
  have hI := runCachedOps_preserves trace tok c0 _ h0
  unfold revokedInv at hI
  obtain ⟨hin, hc⟩ := hI
  refine ⟨hin, ?_⟩
  obtain ⟨r, hr, hra⟩ := hin
  simp only [validate_session_cached]
  by_cases h1 : tok = ""
  · rw [if_pos h1]
    simp [SessionValidation.invalid_session]
  · rw [if_neg h1]
    simp only [get_session_by_token_cached]
    cases hs : cacheServe
        (runCachedOps trace ((deactivate_session now0 tok st).2, c0)).2.validation
        tok now CACHE_TTL_FAST with
    | none =>
      exact get_session_by_token_of_inactive now tok _ r hr hra
    | some v =>
      obtain ⟨e, he, hev, hfresh⟩ := cacheServe_eq_some _ _ _ _ _ hs
      show v.is_valid = false
      rw [← hev]
      cases hc with
      | inl h2 =>
        rw [h2] at he
        cases hstale e he with
        | inl h3 => exact h3
        | inr h3 => exact absurd h3 (by omega)
      | inr h2 => exact h2 e he

/-- A second insert request used in C6's concrete trace. -/
def dataEx2 : SessionCreate :=
  { user_id := 1, session_token := "zzzzzzzzzz99", ip_address := none,
    user_agent := none, expires_at := 99999 }

/-- A concrete post-revocation trace mixing cached refreshes, activity
updates, a new-session insert and cached reads. -/
def traceEx : List (Nat × CachedOp) :=
  [(2, .refresh (some "abcdefghij")), (3, .updActivity "abcdefghij"),
   (4, .create dataEx2), (5, .validate (some "abcdefghij")),
   (6, .checkExpired "abcdefghij")]

/-- Witness for C6's amended theorem: starting from a cold cache, after
revoking the sample session a concrete trace of further cached operations
leaves validation invalid. -/
theorem revoked_session_stays_invalid_cached_witness :
    (validate_session_cached 70 (some "abcdefghij")
      (runCachedOps traceEx ((deactivate_session 1 "abcdefghij" dbEx).2,
        cacheEmpty)).1
      (runCachedOps traceEx ((deactivate_session 1 "abcdefghij" dbEx).2,
        cacheEmpty)).2).1.is_valid = false :=
  (revoked_session_stays_invalid_cached 1 "abcdefghij" dbEx cacheEmpty
    (by decide) traceEx 70
    (fun e he => by simp [cacheEmpty, dictGet] at he)).2

theorem hasActiveToken_imp_hasToken (rows : List (String × SessionRow))
    (tok : String) (h : hasActiveToken rows tok = true) :
    hasToken rows tok = true := by
  induction rows with
  | nil => simp [hasActiveToken] at h
  | cons e rest ih =>
    simp only [hasActiveToken] at h
    simp only [hasToken]
    split at h
    · next hc => simp [hc.1]
    · split
      · rfl
      · exact ih h

theorem hasToken_mem_keys (rows : List (String × SessionRow)) (tok : String)
    (h : hasToken rows tok = true) : tok ∈ rows.map Prod.fst := by
  induction rows with
  | nil => simp [hasToken] at h
  | cons e rest ih =>
    simp only [hasToken] at h
    simp only [List.map_cons, List.mem_cons]
    split at h
    · next hc => exact Or.inl hc.symm
    · exact Or.inr (ih h)

theorem hasActiveToken_first (rows : List (String × SessionRow)) (tok : String)
    (hnd : (rows.map Prod.fst).Nodup) (h : hasActiveToken rows tok = true) :
    ∃ r, lookupSession rows tok = some r ∧ r.is_active = true := by
  induction rows with
  | nil => simp [hasActiveToken] at h
  | cons e rest ih =>
    simp only [List.map_cons, List.nodup_cons] at hnd
    simp only [hasActiveToken] at h
    split at h
    · next hc => exact ⟨e.2, by simp [lookupSession, hc.1], hc.2⟩
    · next hc =>
      by_cases hk : e.1 = tok
      · have hmem := hasToken_mem_keys rest tok (hasActiveToken_imp_hasToken _ _ h)
        exact absurd (hk ▸ hmem) hnd.1
      · obtain ⟨r, hr, hra⟩ := ih hnd.2 h
        exact ⟨r, by simp [lookupSession, hk, hr], hra⟩

/-- Claim C8 as stated is false in the program: `is_session_expired` is
decorated `@st.cache_data(ttl=CACHE_TTL_SHORT=300s)` and nothing ever clears
that cache, so a refresh at time 2 caches "not expired", and a refresh at
time 20 — when the session (expiry 9) is already expired — reads the stale
answer, touches the expired row's `last_activity` and returns `true`. -/
theorem refresh_mutates_expired_session_via_stale_cache :
    rowEx.expires_at < 20 ∧
    (refresh_session_cached 20 (some "abcdefghij")
      (refresh_session_cached 2 (some "abcdefghij") dbEx cacheEmpty).2.1
      (refresh_session_cached 2 (some "abcdefghij") dbEx cacheEmpty).2.2).1 =
      true ∧
    lookupSession
      (refresh_session_cached 20 (some "abcdefghij")
        (refresh_session_cached 2 (some "abcdefghij") dbEx cacheEmpty).2.1
        (refresh_session_cached 2 (some "abcdefghij") dbEx
          cacheEmpty).2.2).2.1.sessions "abcdefghij" =
      some { rowEx with last_activity := 20 } := by decide

/-- C8 (amended): `refresh_session` consults its cached expiry probe before
anything else.  Whenever the probe reads the store (no live cache entry for
the token), an expired session yields `false` with the store untouched, and a
cached "expired" answer likewise yields `false` with the store untouched;
whenever the call returns `true`, the token's (unique) row was active and
gets exactly its `last_activity` set to the current time — but the row is
guaranteed unexpired only when the probe read the store, since a cached
"not expired" answer may be up to 300 seconds stale. -/
theorem refresh_session_cached_probe_first (now : Nat) (tok : String)
    (st : DBState) (c : SessionCache) (row : SessionRow)
    (hrow : lookupSession st.sessions tok = some row) :
    (cacheServe c.expiry tok now CACHE_TTL_SHORT = none →
      row.expires_at < now →
      (refresh_session_cached now (some tok) st c).1 = false ∧
      (refresh_session_cached now (some tok) st c).2.1 = st) ∧
    (cacheServe c.expiry tok now CACHE_TTL_SHORT = some true →
      (refresh_session_cached now (some tok) st c).1 = false ∧
      (refresh_session_cached now (some tok) st c).2.1 = st) ∧
    ((st.sessions.map Prod.fst).Nodup →
      (refresh_session_cached now (some tok) st c).1 = true →
      row.is_active = true ∧
      (now ≤ row.expires_at ∨
        cacheServe c.expiry tok now CACHE_TTL_SHORT = some false) ∧
      lookupSession (refresh_session_cached now (some tok) st c).2.1.sessions
        tok = some { row with last_activity := now }) := by
  refine ⟨?_, ?_, ?_⟩
  · intro hmiss hexp
    by_cases h1 : tok = ""
    · constructor <;> simp [refresh_session_cached, h1]
    · have he : (is_session_expired_cached now tok st c).1 = true := by
        simp only [is_session_expired_cached, hmiss]
        simp [is_session_expired, hrow, hexp]
      constructor <;> simp [refresh_session_cached, h1, he]
  · intro hhit
    by_cases h1 : tok = ""
    · constructor <;> simp [refresh_session_cached, h1]
    · have he : (is_session_expired_cached now tok st c).1 = true := by
        simp [is_session_expired_cached, hhit]
      constructor <;> simp [refresh_session_cached, h1, he]
  · intro hnd htrue
    by_cases h1 : tok = ""
    · rw [h1] at htrue
      simp [refresh_session_cached] at htrue
    · by_cases h2 : (is_session_expired_cached now tok st c).1 = true
      · simp [refresh_session_cached, h1, h2] at htrue
      · simp only [Bool.not_eq_true] at h2
        have hr : refresh_session_cached now (some tok) st c =
            ((update_session_activity now tok st).1,
             (update_session_activity now tok st).2,
             (is_session_expired_cached now tok st c).2) := by
          simp [refresh_session_cached, h1, h2]
        rw [hr] at htrue ⊢
        have hact : hasActiveToken st.sessions tok = true := htrue
        obtain ⟨r, hr1, hra⟩ := hasActiveToken_first st.sessions tok hnd hact
        have hrr : r = row := by
          rw [hrow] at hr1
          exact (Option.some.injEq _ _).mp hr1.symm
        subst hrr
        refine ⟨hra, ?_, ?_⟩
        · cases hs : cacheServe c.expiry tok now CACHE_TTL_SHORT with
          | some b =>
            right
            have hb : b = false := by
              have h2' := h2
              simp only [is_session_expired_cached, hs] at h2'
              exact h2'
            rw [hb]
          | none =>
            left
            have h2' := h2
            simp only [is_session_expired_cached, hs] at h2'
            simp [is_session_expired, hrow] at h2'
            omega
        · simp only [update_session_activity, lookup_touchRows, hrow,
            Option.map_some]
          simp [hra]

/-- An expired-but-active session row, for C8's witness. -/
def rowExpired : SessionRow :=
  { user_id := 1, ip_address := none, user_agent := none, created_at := 0,
    expires_at := 5, last_activity := 0, is_active := true }

/-- A store holding only the expired session, for C8's witness. -/
def dbExpired : DBState :=
  { sessions := [("expiredtok01", rowExpired)],
    users := [(1, { username := "alice", role_id := 2 })],
    roles := [(2, "admin")] }

/-- Witness for C8's amended theorem: on a cold cache a concrete expired
session is refused with the store untouched, and a concrete live session's
`true` refresh implies the row was active and (the probe having read the
store) unexpired, with its activity touched. -/
theorem refresh_session_cached_probe_first_witness :
    (refresh_session_cached 10 (some "expiredtok01") dbExpired cacheEmpty).1 =
      false ∧
    (refresh_session_cached 10 (some "expiredtok01") dbExpired cacheEmpty).2.1 =
      dbExpired ∧
    (rowEx.is_active = true ∧
      (5 ≤ rowEx.expires_at ∨
        cacheServe cacheEmpty.expiry "abcdefghij" 5 CACHE_TTL_SHORT =
          some false) ∧
      lookupSession
        (refresh_session_cached 5 (some "abcdefghij") dbEx
          cacheEmpty).2.1.sessions "abcdefghij" =
        some { rowEx with last_activity := 5 }) := by
  have h1 := refresh_session_cached_probe_first 10 "expiredtok01" dbExpired
    cacheEmpty rowExpired (by decide)
  have h2 := refresh_session_cached_probe_first 5 "abcdefghij" dbEx cacheEmpty
    rowEx (by decide)
  exact ⟨(h1.1 (by decide) (by decide)).1, (h1.1 (by decide) (by decide)).2,
    h2.2.2 (by decide) (by decide)⟩

theorem safe_get_client_ip (o : CtxOutcome String) :
    safe_get_str_attr o "client_ip" =
      some (match o with | .avail v => v | _ => "192.168.1.100") := by
  cases o <;> rfl

theorem safe_get_access_url (o : CtxOutcome String) :
    safe_get_str_attr o "access_url" =
      some (match o with | .avail v => v | _ => "http://192.168.1.100:8501") := by
  cases o <;> rfl

theorem safe_get_timezone (o : CtxOutcome String) :
    safe_get_str_attr o "timezone" =
      some (match o with | .avail v => v | _ => "Asia/Jakarta") := by
  cases o <;> rfl

theorem safe_get_locale (o : CtxOutcome String) :
    safe_get_str_attr o "locale" =
      some (match o with | .avail v => v | _ => "id-ID") := by
  cases o <;> rfl

theorem safe_get_tz_offset (o : CtxOutcome Int) :
    safe_get_int_attr o "timezone_offset" =
      some (match o with | .avail v => v | _ => (-420 : Int)) := by
  cases o <;> rfl

theorem safe_get_embedded (o : CtxOutcome Bool) :
    safe_get_bool_attr o "is_embedded" =
      (match o with | .avail v => v | _ => false) := by
  cases o <;> rfl

theorem safe_get_headers_snd (o : CtxOutcome (List (String × String))) :
    (safe_get_headers o).2 =
      (match o with
       | .avail hs =>
         if hs = [] then fallbackUserAgent
         else (dictGet hs "user-agent").getD fallbackUserAgent
       | _ => fallbackUserAgent) := by
  cases o with
  | avail hs =>
    simp only [safe_get_headers]
    split <;> simp_all
  | isNone => rfl
  | raises => rfl

/-- C9: context capture is total — for every host-environment outcome of every
`st.context` attribute (a value, `None`, or a caught `AttributeError` /
`RuntimeError`), `from_streamlit_context` yields a fully populated
`SessionContext` whose individually unavailable fields take their documented
fallback constants (default LAN client IP, generic user-agent string,
Asia/Jakarta timezone, and so on). -/
theorem from_streamlit_context_never_fails (ctx : StContext) :
    (SessionContext.from_streamlit_context ctx).client_ip =
      some (match ctx.ip_address with | .avail v => v | _ => "192.168.1.100") ∧
    (SessionContext.from_streamlit_context ctx).access_url =
      some (match ctx.url with | .avail v => v | _ => "http://192.168.1.100:8501") ∧
    (SessionContext.from_streamlit_context ctx).timezone =
      some (match ctx.timezone with | .avail v => v | _ => "Asia/Jakarta") ∧
    (SessionContext.from_streamlit_context ctx).timezone_offset =
      some (match ctx.timezone_offset with | .avail v => v | _ => (-420 : Int)) ∧
    (SessionContext.from_streamlit_context ctx).locale =
      some (match ctx.locale with | .avail v => v | _ => "id-ID") ∧
    (SessionContext.from_streamlit_context ctx).is_embedded =
      (match ctx.is_embedded with | .avail v => v | _ => false) ∧
    (SessionContext.from_streamlit_context ctx).user_agent =
      some (match ctx.headers with
            | .avail hs =>
              if hs = [] then fallbackUserAgent
              else (dictGet hs "user-agent").getD fallbackUserAgent
            | _ => fallbackUserAgent) := by
  refine ⟨?_, ?_, ?_, ?_, ?_, ?_, ?_⟩
  · exact safe_get_client_ip ctx.ip_address
  · exact safe_get_access_url ctx.url
  · exact safe_get_timezone ctx.timezone
  · exact safe_get_tz_offset ctx.timezone_offset
  · exact safe_get_locale ctx.locale
  · exact safe_get_embedded ctx.is_embedded
  · show some (safe_get_headers ctx.headers).2 = _
    rw [safe_get_headers_snd]

/-- A sample `UserActiveSession` for the creation-side theorems. -/
def usEx : UserActiveSession :=
  { user_id := 1, username := "alice", name := "Alice", role_id := 2,
    role_name := "admin", session_token := none }

/-- C2 is a code bug: at a token whose session validates as fully valid,
`restore_session_from_token` still returns `false` and leaves the mirror
untouched — the `UserActiveSession` it builds for the mirror passes
`role_id = getattr(validation, "role_id", 0) = 0` (there is no `role_id` on
`SessionValidation`), which violates the model's `gt=0` constraint, and the
raised `ValidationError` is swallowed into the `False` return. -/
theorem restore_valid_token_still_fails :
    (validate_session 5 (some "abcdefghij") dbEx).is_valid = true ∧
    restore_session_from_token 5 "abcdefghij" dbEx UIMirror.empty =
      (false, UIMirror.empty) := by decide

/-- A 46-character (one over the 45 limit), whitespace-free IP string. -/
def longIp : String := "AAAAAAAAAAAAAAAAAAAAAAAAAAAAAAAAAAAAAAAAAAAAAA"

/-- C5 is a code bug: `SessionCreate` VALIDATES its 45/500-character field
limits instead of truncating, so a context with a 46-character `ip_address`
makes `_prepare_session_data` raise a `ValidationError` inside
`create_user_session`'s `try`, which surfaces as a failed result with nothing
inserted — not the truncated, successful insert the claim describes. -/
theorem overlong_metadata_is_rejected_not_truncated :
    stripStr longIp = longIp ∧
    longIp.data.length = 46 ∧
    (create_user_session 0 "FRESHTOKEN123456" usEx
      (some { ip_address := some longIp, user_agent := none })
      emptyDB UIMirror.empty).1.success = false ∧
    (create_user_session 0 "FRESHTOKEN123456" usEx
      (some { ip_address := some longIp, user_agent := none })
      emptyDB UIMirror.empty).2.1 = emptyDB := by decide

/-- Claim C3 as stated is false: with the store already holding the very token
the generator just produced, creation reports failure with the store still
holding its single row — no second, freshly generated token is tried (a retry
would have inserted a second session row or produced a success result). -/
theorem create_collision_no_retry :
    (create_user_session 100 "abcdefghij" usEx none dbEx UIMirror.empty).1.success =
      false ∧
    (create_user_session 100 "abcdefghij" usEx none dbEx
      UIMirror.empty).2.1.sessions.length = 1 ∧
    (create_user_session 100 "abcdefghij" usEx none dbEx UIMirror.empty).2.1 =
      dbEx := by decide

/-- C3 (amended): a duplicate-token insert failure is reported immediately as
a failed `SessionResult` — never silently ignored — with the store and mirror
left unchanged; no retry with a fresh token happens. -/
theorem create_collision_reports_failure (now : Nat) (tok : String)
    (us : UserActiveSession) (ri : Option RequestInfo) (st : DBState)
    (m : UIMirror) (hcol : hasToken st.sessions (stripStr tok) = true) :
    (create_user_session now tok us ri st m).1.success = false ∧
    (create_user_session now tok us ri st m).2.1 = st ∧
    (create_user_session now tok us ri st m).2.2 = m := by
  cases hcn : SessionCreate.create_new us.user_id 8 ri now tok with
  | none => simp [create_user_session, hcn, SessionResult.error_result]
  | some data =>
    have hst : data.session_token = stripStr tok := by
      simp only [SessionCreate.create_new, SessionCreate.mk?] at hcn
      split at hcn
      · have hd := (Option.some.injEq _ _).mp hcn
        rw [← hd]
      · simp at hcn
    simp [create_user_session, hcn, create_session, hst, hcol,
      SessionResult.error_result]

/-- C1: whenever `create_user_session` returns a success result carrying a
token, immediately validating that token yields a valid result whose
`user_id` is the creating user's id.  The hypotheses record what the calling
context guarantees: the (stripped) generated token is at least 10 characters
(`secrets.token_urlsafe(32)` gives 43), and the session's user exists with an
existing role — the spec's "valid userID". -/
theorem create_then_validate_valid (now : Nat) (tok : String)
    (us : UserActiveSession) (ri : Option RequestInfo) (st : DBState)
    (m : UIMirror) (u : UserRow) (rname : String) (t : String)
    (huser : lookupUser st.users us.user_id = some u)
    (hrole : lookupRole st.roles u.role_id = some rname)
    (hlen : 10 ≤ (stripStr tok).data.length)
    (hsucc : (create_user_session now tok us ri st m).1.success = true)
    (htok : (create_user_session now tok us ri st m).1.token = some t) :
    (validate_session now (some t)
      (create_user_session now tok us ri st m).2.1).is_valid = true ∧
    (validate_session now (some t)
      (create_user_session now tok us ri st m).2.1).user_id = some us.user_id := by
  cases hcn : SessionCreate.create_new us.user_id 8 ri now tok with
  | none =>
    simp [create_user_session, hcn, SessionResult.error_result] at hsucc
  | some data =>
    have hcn' := hcn
    simp only [SessionCreate.create_new, SessionCreate.mk?] at hcn'
    split at hcn'
    case isFalse => simp at hcn'
    case isTrue hcond =>
    have hd := (Option.some.injEq _ _).mp hcn'
    have h1 : data.session_token = stripStr tok := by rw [← hd]
    have h2 : data.user_id = us.user_id := by rw [← hd]
    have h3 : data.expires_at = now + 8 * 3600 := by rw [← hd]
    by_cases hdup : hasToken st.sessions data.session_token = true
    · simp [create_user_session, hcn, create_session, hdup,
        SessionResult.error_result] at hsucc
    · simp only [Bool.not_eq_true] at hdup
      have hres : create_user_session now tok us ri st m =
          (SessionResult.success_result (st.sessions.length + 1)
             data.session_token "Hybrid session berhasil dibuat",
           { st with sessions := st.sessions ++ [(data.session_token,
               insertedRow now data)] },
           UIMirror.empty) := by
        simp [create_user_session, hcn, create_session, hdup,
          SessionResult.success_result, set_user_session, clear_user_session]
      rw [hres] at htok
      simp only [SessionResult.success_result, Option.some.injEq] at htok
      subst htok
      rw [hres]
      have hne : ¬ data.session_token = "" := by
        rw [h1]
        intro he
        rw [he] at hlen
        simp at hlen
      have hlook : lookupSession (st.sessions ++ [(data.session_token,
          insertedRow now data)]) data.session_token =
          some (insertedRow now data) := by
        rw [lookupSession_append_of_fresh _ _ _ hdup]
        simp [lookupSession]
      simp only [validate_session, if_neg hne, get_session_by_token]
      rw [if_neg (show ¬ data.session_token.data.length < 10 by rw [h1]; omega)]
      simp only [joinLookup]
      rw [hlook]
      simp only [insertedRow, h2, huser, hrole]
      rw [if_neg (by simp), if_neg (show ¬ data.expires_at < now by rw [h3]; omega)]
      simp [SessionValidation.valid_session, h2]

/-- A fresh store with alice and her role but no session, for C1's witness. -/
def dbFresh : DBState :=
  { sessions := [],
    users := [(1, { username := "alice", role_id := 2 })],
    roles := [(2, "admin")] }

/-- Witness for C1: a concrete creation on a fresh store immediately
validates as the same user. -/
theorem create_then_validate_valid_witness :
    (validate_session 50 (some "FRESHTOKEN123456")
      (create_user_session 50 "FRESHTOKEN123456" usEx none dbFresh
        UIMirror.empty).2.1).is_valid = true ∧
    (validate_session 50 (some "FRESHTOKEN123456")
      (create_user_session 50 "FRESHTOKEN123456" usEx none dbFresh
        UIMirror.empty).2.1).user_id = some usEx.user_id :=
  create_then_validate_valid 50 "FRESHTOKEN123456" usEx none dbFresh
    UIMirror.empty { username := "alice", role_id := 2 } "admin"
    "FRESHTOKEN123456" (by decide) (by decide) (by decide) (by decide) (by decide)

/-- Witness for C3's amended theorem at the concrete colliding store. -/
theorem create_collision_reports_failure_witness :
    (create_user_session 100 "abcdefghij" usEx none dbEx UIMirror.empty).1.success =
      false ∧
    (create_user_session 100 "abcdefghij" usEx none dbEx UIMirror.empty).2.1 =
      dbEx ∧
    (create_user_session 100 "abcdefghij" usEx none dbEx UIMirror.empty).2.2 =
      UIMirror.empty :=
  create_collision_reports_failure 100 "abcdefghij" usEx none dbEx UIMirror.empty
    (by decide)
